import Mathlib

/-!
# Social-graph and session handlers of the Instagram clone

A shallow embedding of `backend/controllers/user.controller.js` (the request
handlers `register`, `login`, `getSuggestedUsers`, `followOrUnfollow`) and of
`frontend/src/redux/authSlice.js` (the auth reducer).

* The document store is a pair of collections, each a list of documents in
  insertion order. Object ids are natural numbers.
* An id that arrives in a request is a string, not an object id: `ReqId`
  records what the string casts to and how it is spelt. Strict equality and
  `includes` look at the string; `findById`, `find`, `$push` and `$pull` cast
  it. A string that cannot be cast makes the query throw, which the handler
  answers with 500.
* A handler is a function from the store and the request to an `Outcome`:
  the HTTP response, the store afterwards, and the store operations issued.
* `bcryptjs` and `jsonwebtoken` are external libraries; they are carried in an
  `Env` record of functions.
* Infrastructure failures of the store (connection loss and the like) are
  not modelled: apart from cast errors every store operation succeeds.
-/

namespace InstaClone

/-! ## Data model -/

/-- Object ids (`_id`, and the ids held in the graph lists). -/
abbrev Id := Nat

/-- An id string as a request carries it (`req.id`, `req.params.id`).
`value` is the object id the store casts the string to, `none` when the cast
fails. `spelling` tells the strings with the same cast apart: spelling 0 is the
lower-case hex string that `ObjectId.toString()` yields, any other number is
another string for the same id (upper-case hex digits, for one). Two request
ids are the same string exactly when both components agree. -/
structure ReqId where
  value : Option Id
  spelling : Nat
  deriving DecidableEq, Repr

/-- A document of the `User` collection, with the fields the controller touches. -/
structure User where
  _id : Id
  username : String
  email : String
  password : String
  profilePicture : String
  bio : String
  gender : Option String
  followers : List Id
  following : List Id
  posts : List Id
  bookmarks : List Id
  deriving DecidableEq, Repr

/-- A user document after `.select("-password")`. -/
structure PublicUser where
  _id : Id
  username : String
  email : String
  profilePicture : String
  bio : String
  gender : Option String
  followers : List Id
  following : List Id
  posts : List Id
  bookmarks : List Id
  deriving DecidableEq, Repr

/-- A document of the `Post` collection. -/
structure Post where
  _id : Id
  author : Id
  caption : String
  deriving DecidableEq, Repr

/-- The two collections the controller reads and writes. -/
structure Store where
  users : List User
  posts : List Post
  deriving DecidableEq, Repr

/-- The array fields edited by `followOrUnfollow`. -/
inductive Field where
  | following
  | followers
  deriving DecidableEq, Repr

/-- The array update operators used by the controller. -/
inductive Update where
  | push (field : Field) (value : Id)
  | pull (field : Field) (value : Id)
  deriving DecidableEq, Repr

/-- Store operations, in the order a handler issues them. -/
inductive DbOp where
  | userFindOne (email : String)
  | userCreate (email : String)
  | userFind (ne : ReqId)
  | userFindById (id : ReqId)
  | userFindByIdAndUpdate (id : ReqId) (update : Update)
  | postFindById (id : Id)
  deriving DecidableEq, Repr

/-! ## Store operations -/

/-- The cast of a request string to an object id; `none` is a `CastError`. -/
def castObjectId (r : ReqId) : Option Id := r.value

/-- `ObjectId.toString()`: the lower-case hex string of an object id. -/
def hexString (x : Id) : ReqId := { value := some x, spelling := 0 }

/-- `array.includes(str)` on an array of object ids: true when the string of
some element is the given string. -/
def includes (ids : List Id) (r : ReqId) : Bool :=
  ids.any (fun x => decide (hexString x = r))

/-- `User.findById(id)`: the document with that `_id`, if any. -/
def User.findById (users : List User) (id : Id) : Option User :=
  users.find? (fun u => decide (u._id = id))

/-- `User.findOne({ email })`: the first document with that email, if any. -/
def User.findOne (users : List User) (email : String) : Option User :=
  users.find? (fun u => decide (u.email = email))

/-- `Post.findById(id)`. -/
def Post.findById (posts : List Post) (id : Id) : Option Post :=
  posts.find? (fun p => decide (p._id = id))

/-- `$push` appends the value; `$pull` removes every element equal to the value. -/
def applyUpdate : Update → User → User
  | .push .following v, u => { u with following := u.following ++ [v] }
  | .push .followers v, u => { u with followers := u.followers ++ [v] }
  | .pull .following v, u => { u with following := u.following.filter (fun x => decide (x ≠ v)) }
  | .pull .followers v, u => { u with followers := u.followers.filter (fun x => decide (x ≠ v)) }

/-- Rewrite the document with the given `_id` (the first one found) by `f`. -/
def modifyById (f : User → User) : List User → Id → List User
  | [], _ => []
  | u :: us, id => if u._id = id then f u :: us else u :: modifyById f us id

/-- `User.findByIdAndUpdate(id, update)`. -/
def User.findByIdAndUpdate (users : List User) (id : Id) (update : Update) : List User :=
  modifyById (applyUpdate update) users id

/-- `.select("-password")` on one document. -/
def selectMinusPassword (u : User) : PublicUser :=
  { _id := u._id, username := u.username, email := u.email,
    profilePicture := u.profilePicture, bio := u.bio, gender := u.gender,
    followers := u.followers, following := u.following, posts := u.posts,
    bookmarks := u.bookmarks }

/-- `User.find({ _id: { $ne: id } }).select("-password")`. -/
def User.findNe (users : List User) (id : Id) : List PublicUser :=
  (users.filter (fun u => decide (u._id ≠ id))).map selectMinusPassword

/-- `User.create({ username, email, password })` with the generated object id
`oid`. The schema file is not among the sources; the remaining fields take the
empty defaults the data model describes (empty graph and post fields). -/
def User.create (users : List User) (oid : Id) (username email password : String) : List User :=
  users ++ [{ _id := oid, username := username, email := email, password := password,
              profilePicture := "", bio := "", gender := none,
              followers := [], following := [], posts := [], bookmarks := [] }]

/-! ## HTTP responses -/

/-- The `userResponse` object assembled by `login`; `posts` holds a post
document or `null` per stored post id. -/
structure UserResponse where
  _id : Id
  username : String
  email : String
  profilePicture : String
  bio : String
  followers : List Id
  following : List Id
  posts : List (Option Post)
  deriving DecidableEq, Repr

/-- A JSON response body; absent keys are `none`. -/
structure Body where
  message : Option String
  success : Bool
  user : Option UserResponse
  users : Option (List PublicUser)
  updatedFollowerCount : Option Int
  deriving DecidableEq, Repr

/-- A cookie set by `res.cookie`. -/
structure Cookie where
  name : String
  value : String
  httpOnly : Bool
  sameSite : Option String
  maxAge : Nat
  deriving DecidableEq, Repr

/-- An HTTP response: status code, JSON body and the cookie set, if any. -/
structure Response where
  status : Nat
  body : Body
  cookie : Option Cookie
  deriving DecidableEq, Repr

/-- What a handler does: its response, the store afterwards, the operations issued. -/
structure Outcome where
  res : Response
  store : Store
  ops : List DbOp
  deriving DecidableEq, Repr

/-- `res.status(code).json({ message, success })`. -/
def jsonMessage (code : Nat) (message : String) (success : Bool) : Response :=
  { status := code,
    body := { message := some message, success := success, user := none, users := none,
              updatedFollowerCount := none },
    cookie := none }

/-- The external libraries: `bcrypt.hash(password, rounds)`,
`bcrypt.compare(password, hash)` and `jwt.sign({ userId }, SECRET_KEY, { expiresIn })`. -/
structure Env where
  bcryptHash : String → Nat → String
  bcryptCompare : String → String → Bool
  jwtSign : Id → String → String

/-- JavaScript truthiness of a body field that is a string or absent. -/
def truthy : Option String → Option String
  | some s => if s = "" then none else some s
  | none => none

/-! ## Handlers -/

/-- Body of `POST /register`. -/
structure RegisterBody where
  username : Option String
  email : Option String
  password : Option String
  deriving DecidableEq, Repr

/-- Handler `register`; `oid` is the object id generated for the new document. -/
def register (E : Env) (db : Store) (req : RegisterBody) (oid : Id) : Outcome :=
  match truthy req.username, truthy req.email, truthy req.password with
  | some username, some email, some password =>
    match User.findOne db.users email with
    | some _ =>
      { res := jsonMessage 400 "Email already in use" false, store := db,
        ops := [.userFindOne email] }
    | none =>
      let hashedPassword := E.bcryptHash password 10
      { res := jsonMessage 201 "Account created successfully." true,
        store := { db with users := User.create db.users oid username email hashedPassword },
        ops := [.userFindOne email, .userCreate email] }
  | _, _, _ =>
    { res := jsonMessage 400 "All fields are required" false, store := db, ops := [] }

/-- Body of `POST /login`. -/
structure LoginBody where
  email : Option String
  password : Option String
  deriving DecidableEq, Repr

/-- The callback mapped over `user.posts` in `login`. -/
def populatePost (posts : List Post) (userId : Id) (postId : Id) : Option Post :=
  match Post.findById posts postId with
  | some post => if post.author = userId then some post else none
  | none => none

/-- Handler `login`. -/
def login (E : Env) (db : Store) (req : LoginBody) : Outcome :=
  match truthy req.email, truthy req.password with
  | some email, some password =>
    match User.findOne db.users email with
    | none =>
      { res := jsonMessage 400 "Invalid email or password" false, store := db,
        ops := [.userFindOne email] }
    | some user =>
      if E.bcryptCompare password user.password = false then
        { res := jsonMessage 400 "Invalid email or password" false, store := db,
          ops := [.userFindOne email] }
      else
        let token := E.jwtSign user._id "1d"
        let populatedPosts := user.posts.map (populatePost db.posts user._id)
        let userResponse : UserResponse :=
          { _id := user._id, username := user.username, email := user.email,
            profilePicture := user.profilePicture, bio := user.bio,
            followers := user.followers, following := user.following,
            posts := populatedPosts }
        { res :=
            { status := 200,
              body := { message := some ("Welcome back " ++ user.username), success := true,
                        user := some userResponse, users := none,
                        updatedFollowerCount := none },
              cookie := some { name := "token", value := token, httpOnly := true,
                               sameSite := some "strict", maxAge := 24 * 60 * 60 * 1000 } },
          store := db,
          ops := .userFindOne email :: user.posts.map DbOp.postFindById }
  | _, _ =>
    { res := jsonMessage 400 "Email and password are required" false, store := db, ops := [] }

/-- Handler `getSuggestedUsers`; `reqId` is the authenticated caller `req.id`. -/
def getSuggestedUsers (db : Store) (reqId : ReqId) : Outcome :=
  match castObjectId reqId with
  | some callerId =>
    let suggestedUsers := User.findNe db.users callerId
    if suggestedUsers.length = 0 then
      { res := jsonMessage 400 "No suggested users at this time" false, store := db,
        ops := [.userFind reqId] }
    else
      { res := { status := 200,
                 body := { message := none, success := true, user := none,
                           users := some suggestedUsers, updatedFollowerCount := none },
                 cookie := none },
        store := db, ops := [.userFind reqId] }
  | none =>
    { res := jsonMessage 500 "Internal server error" false, store := db,
      ops := [.userFind reqId] }

/-- `res.status(200).json({ message, success: true, updatedFollowerCount })`. -/
def jsonCount (message : String) (count : Int) : Response :=
  { status := 200,
    body := { message := some message, success := true, user := none, users := none,
              updatedFollowerCount := some count },
    cookie := none }

/-- Handler `followOrUnfollow`; `currentUserId` is `req.id`, `targetUserId` is
`req.params.id`. Both updates of a `Promise.all` pair are applied. -/
def followOrUnfollow (db : Store) (currentUserId targetUserId : ReqId) : Outcome :=
  if currentUserId = targetUserId then
    { res := jsonMessage 400 "You cannot follow/unfollow yourself" false, store := db, ops := [] }
  else
    let reads := [DbOp.userFindById currentUserId, DbOp.userFindById targetUserId]
    match castObjectId currentUserId, castObjectId targetUserId with
    | some callerId, some targetId =>
      match User.findById db.users callerId, User.findById db.users targetId with
      | some user, some targetUser =>
        let isFollowing := includes user.following targetUserId
        if isFollowing then
          let u1 := Update.pull .following targetId
          let u2 := Update.pull .followers callerId
          let users1 := User.findByIdAndUpdate db.users callerId u1
          let users2 := User.findByIdAndUpdate users1 targetId u2
          { res := jsonCount "Unfollowed successfully" ((targetUser.followers.length : Int) - 1),
            store := { db with users := users2 },
            ops := reads ++ [.userFindByIdAndUpdate currentUserId u1,
                             .userFindByIdAndUpdate targetUserId u2] }
        else
          let u1 := Update.push .following targetId
          let u2 := Update.push .followers callerId
          let users1 := User.findByIdAndUpdate db.users callerId u1
          let users2 := User.findByIdAndUpdate users1 targetId u2
          { res := jsonCount "Followed successfully" ((targetUser.followers.length : Int) + 1),
            store := { db with users := users2 },
            ops := reads ++ [.userFindByIdAndUpdate currentUserId u1,
                             .userFindByIdAndUpdate targetUserId u2] }
      | _, _ =>
        { res := jsonMessage 404 "User not found" false, store := db, ops := reads }
    | _, _ =>
      { res := jsonMessage 500 "Internal server error" false, store := db, ops := reads }

/-! ## Client state store (`authSlice.js`) -/

/-- A user object held by the client. -/
structure ClientUser where
  _id : Id
  username : String
  followers : List Id
  following : List Id
  deriving DecidableEq, Repr

/-- The state of the `auth` slice; `error` is `null` or a rejected payload. -/
structure AuthState where
  user : Option ClientUser
  suggestedUsers : List ClientUser
  userProfile : Option ClientUser
  selectedUser : Option ClientUser
  status : String
  error : Option Body
  deriving DecidableEq, Repr

/-- The `initialState` of the slice. -/
def AuthState.initialState : AuthState :=
  { user := none, suggestedUsers := [], userProfile := none, selectedUser := none,
    status := "idle", error := none }

/-- The actions the slice handles. A fulfilled thunk carries `userId` and
`followerId`; a rejected thunk carries the payload given to `rejectWithValue`,
or nothing. -/
inductive AuthAction where
  | setAuthUser (payload : Option ClientUser)
  | setSuggestedUsers (payload : List ClientUser)
  | setUserProfile (payload : Option ClientUser)
  | setSelectedUser (payload : Option ClientUser)
  | followUserPending
  | followUserFulfilled (userId followerId : Id)
  | followUserRejected (payload : Option Body)
  | unfollowUserPending
  | unfollowUserFulfilled (userId followerId : Id)
  | unfollowUserRejected (payload : Option Body)
  deriving DecidableEq, Repr

/-- The slice reducer: `reducers` and `extraReducers` of `authSlice`. -/
def authReducer (state : AuthState) : AuthAction → AuthState
  | .setAuthUser payload => { state with user := payload }
  | .setSuggestedUsers payload => { state with suggestedUsers := payload }
  | .setUserProfile payload => { state with userProfile := payload }
  | .setSelectedUser payload => { state with selectedUser := payload }
  | .followUserPending => { state with status := "loading" }
  | .followUserFulfilled userId followerId =>
    { state with
      status := "succeeded",
      userProfile := state.userProfile.map (fun p =>
        if p._id = userId then { p with followers := p.followers ++ [followerId] } else p),
      user := state.user.map (fun u => { u with following := u.following ++ [userId] }),
      error := none }
  | .followUserRejected payload => { state with status := "failed", error := payload }
  | .unfollowUserPending => { state with status := "loading" }
  | .unfollowUserFulfilled userId followerId =>
    { state with
      status := "succeeded",
      userProfile := state.userProfile.map (fun p =>
        if p._id = userId then
          { p with followers := p.followers.filter (fun id => decide (id ≠ followerId)) }
        else p),
      user := state.user.map (fun u =>
        { u with following := u.following.filter (fun id => decide (id ≠ userId)) }),
      error := none }
  | .unfollowUserRejected payload => { state with status := "failed", error := payload }

/-! ## Invariants and predicates used in the statements -/

/-- The mirrored-edge invariant: whenever the store holds users `x` and `y` and
`y` is in the following list of `x`, then `x` is in the followers list of `y`. -/
def Mirrored (users : List User) : Prop :=
  ∀ x y ux uy, User.findById users x = some ux → User.findById users y = some uy →
    y ∈ ux.following → x ∈ uy.followers

/-- The invariant stated over the documents of the collection. -/
def MirroredDocs (users : List User) : Prop :=
  ∀ ux ∈ users, ∀ uy ∈ users, uy._id ∈ ux.following → ux._id ∈ uy.followers

instance (users : List User) : Decidable (MirroredDocs users) := by
  unfold MirroredDocs; infer_instance

/-- Whether a stored post id resolves to a post document whose author is the user. -/
def resolvesToOwnPost (posts : List Post) (userId : Id) (postId : Id) : Bool :=
  match Post.findById posts postId with
  | some post => decide (post.author = userId)
  | none => false

/-! ## Concrete data used in examples -/

/-- A user document with empty profile, graph and post fields. -/
def mkUser (id : Id) (username email password : String) : User :=
  { _id := id, username := username, email := email, password := password,
    profilePicture := "", bio := "", gender := none,
    followers := [], following := [], posts := [], bookmarks := [] }

/-- A stand-in for the external libraries, for evaluating the handlers. -/
def demoEnv : Env :=
  { bcryptHash := fun password _ => "$2a$10$" ++ password,
    bcryptCompare := fun password hash => decide (hash = "$2a$10$" ++ password),
    jwtSign := fun userId expiresIn => "jwt." ++ toString userId ++ "." ++ expiresIn }

/-- Two users, neither following the other. -/
def storeTwo : Store :=
  { users := [mkUser 1 "alice" "alice@x.com" "h1", mkUser 2 "bob" "bob@x.com" "h2"],
    posts := [] }

/-- An asymmetric store: user 2 lists user 1 as a follower, user 1 follows nobody. -/
def storeHalfEdge : Store :=
  { users := [mkUser 1 "alice" "alice@x.com" "h1",
              { mkUser 2 "bob" "bob@x.com" "h2" with followers := [1] }],
    posts := [] }

/-- An asymmetric store: user 1 follows user 2, user 2 has no followers. -/
def storeDangling : Store :=
  { users := [{ mkUser 1 "alice" "alice@x.com" "h1" with following := [2] },
              mkUser 2 "bob" "bob@x.com" "h2"],
    posts := [] }

/-- User 1 lists three post ids: 10 is their own post, 11 belongs to user 2,
12 resolves to no post. -/
def storePosts : Store :=
  { users := [{ mkUser 1 "alice" "alice@x.com" "$2a$10$pw123456" with posts := [10, 11, 12] },
              mkUser 2 "bob" "bob@x.com" "$2a$10$hunter22"],
    posts := [{ _id := 10, author := 1, caption := "mine" },
              { _id := 11, author := 2, caption := "theirs" }] }

/-! ## Store lemmas -/

theorem applyUpdate_id (upd : Update) (u : User) : (applyUpdate upd u)._id = u._id := by
  rcases upd with ⟨f, v⟩ | ⟨f, v⟩ <;> cases f <;> rfl

theorem findById_id {s : List User} {i : Id} {u : User}
    (h : User.findById s i = some u) : u._id = i := by
  have := List.find?_some h
  simpa using this

theorem findById_mem {s : List User} {i : Id} {u : User}
    (h : User.findById s i = some u) : u ∈ s :=
  List.mem_of_find?_eq_some h

theorem findById_modifyById (f : User → User) (hf : ∀ u, (f u)._id = u._id)
    (s : List User) (i j : Id) :
    User.findById (modifyById f s i) j =
      if j = i then (User.findById s i).map f else User.findById s j := by
  induction s with
  | nil => simp [modifyById, User.findById]
  | cons u us ih =>
    unfold User.findById at ih ⊢
    by_cases hu : u._id = i
    · by_cases hj : j = i
      · subst hj
        simp [modifyById, hu, hf, List.find?_cons]
      · have hne : ¬ i = j := fun h => hj h.symm
        simp [modifyById, hu, hf, hj, hne, List.find?_cons]
    · by_cases huj : u._id = j
      · have hj : ¬ j = i := fun h => hu (huj.trans h)
        simp [modifyById, hu, hj, huj, List.find?_cons]
      · simp [modifyById, hu, huj, List.find?_cons, ih]

theorem findById_findByIdAndUpdate (s : List User) (i j : Id) (upd : Update) :
    User.findById (User.findByIdAndUpdate s i upd) j =
      if j = i then (User.findById s i).map (applyUpdate upd) else User.findById s j :=
  findById_modifyById _ (applyUpdate_id upd) s i j

theorem modifyById_modifyById_same (f g : User → User) (hf : ∀ u, (f u)._id = u._id)
    (s : List User) (i : Id) :
    modifyById g (modifyById f s i) i = modifyById (fun u => g (f u)) s i := by
  induction s with
  | nil => rfl
  | cons u us ih =>
    by_cases hu : u._id = i
    · simp [modifyById, hu, hf]
    · simp [modifyById, hu, ih]

theorem modifyById_comm (f g : User → User) (hf : ∀ u, (f u)._id = u._id)
    (hg : ∀ u, (g u)._id = u._id) (s : List User) (i j : Id) (hij : i ≠ j) :
    modifyById g (modifyById f s i) j = modifyById f (modifyById g s j) i := by
  induction s with
  | nil => rfl
  | cons u us ih =>
    by_cases hu : u._id = i
    · have hne : ¬ u._id = j := fun h => hij (hu.symm.trans h)
      simp [modifyById, hu, hne, hf, hij]
    · by_cases huj : u._id = j
      · have hji : ¬ j = i := fun h => hij h.symm
        simp [modifyById, hu, huj, hg, hji]
      · simp [modifyById, hu, huj, ih]

theorem modifyById_fixed (f : User → User) (s : List User) (i : Id) (u : User)
    (h : User.findById s i = some u) (hfix : f u = u) : modifyById f s i = s := by
  induction s with
  | nil => rfl
  | cons v vs ih =>
    unfold User.findById at h ih
    by_cases hv : v._id = i
    · simp [List.find?_cons, hv] at h
      subst h
      simp [modifyById, hv, hfix]
    · simp [List.find?_cons, hv] at h
      simp [modifyById, hv, ih h]

theorem mem_filter_ne_self (l : List Id) (v : Id) :
    v ∉ l.filter (fun x => decide (x ≠ v)) := by
  simp [List.mem_filter]

theorem filter_ne_of_not_mem (l : List Id) (v : Id) (h : v ∉ l) :
    l.filter (fun x => decide (x ≠ v)) = l := by
  apply List.filter_eq_self.mpr
  intro x hx
  have : x ≠ v := fun e => h (e ▸ hx)
  simpa using this

theorem filter_ne_append_self (l : List Id) (v : Id) (h : v ∉ l) :
    (l ++ [v]).filter (fun x => decide (x ≠ v)) = l := by
  rw [List.filter_append, filter_ne_of_not_mem l v h]
  simp

theorem includes_eq_true_iff (l : List Id) (r : ReqId) :
    includes l r = true ↔ ∃ x ∈ l, hexString x = r := by
  simp [includes, List.any_eq_true]

theorem includes_hexString (l : List Id) (b : Id) :
    includes l (hexString b) = true ↔ b ∈ l := by
  rw [includes_eq_true_iff]
  constructor
  · rintro ⟨x, hx, he⟩
    have hxb : x = b := by simpa [hexString] using he
    exact hxb ▸ hx
  · intro h
    exact ⟨b, h, rfl⟩

theorem includes_false_of_not_mem (l : List Id) (r : ReqId) (b : Id)
    (hr : castObjectId r = some b) (hb : b ∉ l) : includes l r = false := by
  cases h : includes l r with
  | false => rfl
  | true =>
    obtain ⟨x, hx, he⟩ := (includes_eq_true_iff l r).mp h
    subst he
    have hxb : x = b := by simpa [castObjectId, hexString] using hr
    exact absurd (hxb ▸ hx) hb

theorem reqId_ne_of_cast_ne (ra rb : ReqId) (a b : Id) (hra : castObjectId ra = some a)
    (hrb : castObjectId rb = some b) (hab : a ≠ b) : ra ≠ rb := by
  intro h
  subst h
  rw [hra] at hrb
  exact hab (Option.some.inj hrb)

/-- The outcome of the follow branch. -/
theorem followOrUnfollow_follow_users (db : Store) (ra rb : ReqId) (a b : Id) (ua ub : User)
    (hne : ra ≠ rb) (hra : castObjectId ra = some a) (hrb : castObjectId rb = some b)
    (ha : User.findById db.users a = some ua) (hb : User.findById db.users b = some ub)
    (hinc : includes ua.following rb = false) :
    followOrUnfollow db ra rb =
      { res := jsonCount "Followed successfully" ((ub.followers.length : Int) + 1),
        store :=
          { db with
            users := User.findByIdAndUpdate
              (User.findByIdAndUpdate db.users a (.push .following b)) b (.push .followers a) },
        ops := [.userFindById ra, .userFindById rb,
                .userFindByIdAndUpdate ra (.push .following b),
                .userFindByIdAndUpdate rb (.push .followers a)] } := by
  simp [followOrUnfollow, hne, hra, hrb, ha, hb, hinc]

/-- The outcome of the unfollow branch. -/
theorem followOrUnfollow_unfollow_users (db : Store) (ra rb : ReqId) (a b : Id) (ua ub : User)
    (hne : ra ≠ rb) (hra : castObjectId ra = some a) (hrb : castObjectId rb = some b)
    (ha : User.findById db.users a = some ua) (hb : User.findById db.users b = some ub)
    (hinc : includes ua.following rb = true) :
    followOrUnfollow db ra rb =
      { res := jsonCount "Unfollowed successfully" ((ub.followers.length : Int) - 1),
        store :=
          { db with
            users := User.findByIdAndUpdate
              (User.findByIdAndUpdate db.users a (.pull .following b)) b (.pull .followers a) },
        ops := [.userFindById ra, .userFindById rb,
                .userFindByIdAndUpdate ra (.pull .following b),
                .userFindByIdAndUpdate rb (.pull .followers a)] } := by
  simp [followOrUnfollow, hne, hra, hrb, ha, hb, hinc]

/-- Either the call answers an error and leaves the store as it was, or both
request ids cast, differ as strings and resolve to users. -/
theorem followOrUnfollow_cases (db : Store) (ra rb : ReqId) :
    (followOrUnfollow db ra rb).store = db ∨
    ∃ a b ua ub, ra ≠ rb ∧ castObjectId ra = some a ∧ castObjectId rb = some b ∧
      User.findById db.users a = some ua ∧ User.findById db.users b = some ub := by
  by_cases hne : ra = rb
  · left; simp [followOrUnfollow, hne]
  cases hra : castObjectId ra with
  | none => left; simp [followOrUnfollow, hne, hra]
  | some a =>
  cases hrb : castObjectId rb with
  | none => left; simp [followOrUnfollow, hne, hra, hrb]
  | some b =>
  cases ha : User.findById db.users a with
  | none => left; simp [followOrUnfollow, hne, hra, hrb, ha]
  | some ua =>
  cases hb : User.findById db.users b with
  | none => left; simp [followOrUnfollow, hne, hra, hrb, ha, hb]
  | some ub => exact Or.inr ⟨a, b, ua, ub, hne, rfl, rfl, ha, hb⟩

/-- Reading a user back after the two updates, for distinct ids. -/
theorem findById_two_updates (s : List User) (a b x : Id) (u1 u2 : Update) (hab : a ≠ b) :
    User.findById (User.findByIdAndUpdate (User.findByIdAndUpdate s a u1) b u2) x =
      if x = a then (User.findById s a).map (applyUpdate u1)
      else if x = b then (User.findById s b).map (applyUpdate u2)
      else User.findById s x := by
  rw [findById_findByIdAndUpdate, findById_findByIdAndUpdate, findById_findByIdAndUpdate]
  by_cases hxa : x = a
  · have hxb : ¬ x = b := fun h => hab (hxa.symm.trans h)
    simp [hxa, hxb, hab]
  · by_cases hxb : x = b
    · have hba : ¬ b = a := fun h => hab h.symm
      simp [hxb, hba]
    · simp [hxa, hxb]

/-- Reading a user back after the two updates, whether or not the two ids differ:
the document is the stored one with the first update applied if its id is `a`
and then the second applied if its id is `b`. -/
theorem findById_after_updates (s : List User) (a b x : Id) (u1 u2 : Update) (ux' : User)
    (h : User.findById (User.findByIdAndUpdate (User.findByIdAndUpdate s a u1) b u2) x =
      some ux') :
    ∃ ux, User.findById s x = some ux ∧
      ux' = (if x = b then applyUpdate u2 else id) ((if x = a then applyUpdate u1 else id) ux) := by
  simp only [findById_findByIdAndUpdate] at h
  cases hs : User.findById s x with
  | none =>
    exfalso
    by_cases hxb : x = b
    · by_cases hxa : x = a
      · have hba : b = a := hxb.symm.trans hxa
        rw [if_pos hxb, if_pos hba, ← hxa, hs] at h
        simp at h
      · have hba : ¬ b = a := fun e => hxa (hxb.trans e)
        rw [if_pos hxb, if_neg hba, ← hxb, hs] at h
        simp at h
    · by_cases hxa : x = a
      · rw [if_neg hxb, if_pos hxa, ← hxa, hs] at h
        simp at h
      · rw [if_neg hxb, if_neg hxa, hs] at h
        simp at h
  | some ux =>
    refine ⟨ux, rfl, ?_⟩
    by_cases hxb : x = b
    · by_cases hxa : x = a
      · have hba : b = a := hxb.symm.trans hxa
        rw [if_pos hxb, if_pos hba, ← hxa, hs] at h
        rw [if_pos hxb, if_pos hxa]
        simpa using h.symm
      · have hba : ¬ b = a := fun e => hxa (hxb.trans e)
        rw [if_pos hxb, if_neg hba, ← hxb, hs] at h
        rw [if_pos hxb, if_neg hxa]
        simpa using h.symm
    · by_cases hxa : x = a
      · rw [if_neg hxb, if_pos hxa, ← hxa, hs] at h
        rw [if_neg hxb, if_pos hxa]
        simpa using h.symm
      · rw [if_neg hxb, if_neg hxa, hs] at h
        rw [if_neg hxb, if_neg hxa]
        simpa using h.symm

/-- The graph lists of a user read back after a follow of `b` by `a`. -/
theorem lists_after_follow (s : List User) (a b x : Id) (ux' : User)
    (h : User.findById (User.findByIdAndUpdate
      (User.findByIdAndUpdate s a (.push .following b)) b (.push .followers a)) x = some ux') :
    ∃ ux, User.findById s x = some ux ∧
      ux'.following = (if x = a then ux.following ++ [b] else ux.following) ∧
      ux'.followers = (if x = b then ux.followers ++ [a] else ux.followers) := by
  obtain ⟨ux, h1, h2⟩ := findById_after_updates s a b x _ _ ux' h
  refine ⟨ux, h1, ?_, ?_⟩ <;> rw [h2] <;> split_ifs <;> simp [applyUpdate]

/-- The graph lists of a user read back after an unfollow of `b` by `a`. -/
theorem lists_after_unfollow (s : List User) (a b x : Id) (ux' : User)
    (h : User.findById (User.findByIdAndUpdate
      (User.findByIdAndUpdate s a (.pull .following b)) b (.pull .followers a)) x = some ux') :
    ∃ ux, User.findById s x = some ux ∧
      ux'.following =
        (if x = a then ux.following.filter (fun v => decide (v ≠ b)) else ux.following) ∧
      ux'.followers =
        (if x = b then ux.followers.filter (fun v => decide (v ≠ a)) else ux.followers) := by
  obtain ⟨ux, h1, h2⟩ := findById_after_updates s a b x _ _ ux' h
  refine ⟨ux, h1, ?_, ?_⟩ <;> rw [h2] <;> split_ifs <;> simp [applyUpdate]

theorem mirrored_of_docs (users : List User) (h : MirroredDocs users) : Mirrored users := by
  intro x y ux uy hx hy hmem
  have h1 := findById_id hx
  have h2 := findById_id hy
  subst h1 h2
  exact h ux (findById_mem hx) uy (findById_mem hy) hmem

/-! ## Claims about `followOrUnfollow` -/

/-- C1: when distinct existing users A and B are such that B is not in A's
following list, `followOrUnfollow` with caller A and target B (each id sent in
any spelling) answers 200 "Followed successfully", and in the store afterwards
B is in A's following list and A is in B's followers list. -/
theorem followOrUnfollow_follows (db : Store) (ra rb : ReqId) (a b : Id) (ua ub : User)
    (hra : castObjectId ra = some a) (hrb : castObjectId rb = some b) (hab : a ≠ b)
    (ha : User.findById db.users a = some ua) (hb : User.findById db.users b = some ub)
    (hnf : b ∉ ua.following) :
    (followOrUnfollow db ra rb).res.status = 200 ∧
    (followOrUnfollow db ra rb).res.body.message = some "Followed successfully" ∧
    (followOrUnfollow db ra rb).res.body.success = true ∧
    (∃ ua', User.findById (followOrUnfollow db ra rb).store.users a = some ua' ∧
      b ∈ ua'.following) ∧
    (∃ ub', User.findById (followOrUnfollow db ra rb).store.users b = some ub' ∧
      a ∈ ub'.followers) := by
  rw [followOrUnfollow_follow_users db ra rb a b ua ub (reqId_ne_of_cast_ne ra rb a b hra hrb hab)
    hra hrb ha hb (includes_false_of_not_mem _ rb b hrb hnf)]
  refine ⟨rfl, rfl, rfl, ?_, ?_⟩
  · refine ⟨applyUpdate (.push .following b) ua, ?_, ?_⟩
    · simp [findById_two_updates _ _ _ _ _ _ hab, ha]
    · simp [applyUpdate]
  · refine ⟨applyUpdate (.push .followers a) ub, ?_, ?_⟩
    · have hba : ¬ b = a := fun h => hab h.symm
      simp [findById_two_updates _ _ _ _ _ _ hab, hb, hba]
    · simp [applyUpdate]

theorem followOrUnfollow_follows_witness :
    (1 : Id) ≠ 2 ∧
    (followOrUnfollow storeTwo (hexString 1) (hexString 2)).res.status = 200 ∧
    (followOrUnfollow storeTwo (hexString 1) (hexString 2)).res.body.message =
      some "Followed successfully" ∧
    (followOrUnfollow storeTwo (hexString 1) (hexString 2)).res.body.success = true ∧
    (∃ ua', User.findById (followOrUnfollow storeTwo (hexString 1) (hexString 2)).store.users 1
        = some ua' ∧ 2 ∈ ua'.following) ∧
    (∃ ub', User.findById (followOrUnfollow storeTwo (hexString 1) (hexString 2)).store.users 2
        = some ub' ∧ 1 ∈ ub'.followers) :=
  ⟨by decide,
   followOrUnfollow_follows storeTwo (hexString 1) (hexString 2) 1 2
     (mkUser 1 "alice" "alice@x.com" "h1") (mkUser 2 "bob" "bob@x.com" "h2")
     (by decide) (by decide) (by decide) (by decide) (by decide) (by decide)⟩

/-- C3: a call whose caller id and target id are the same string answers the
400 self-reference error, issues no store operation and leaves the store
unchanged, whether or not the string casts to an id and whether or not a user
with that id exists. -/
theorem followOrUnfollow_self (db : Store) (r : ReqId) :
    followOrUnfollow db r r =
      { res := jsonMessage 400 "You cannot follow/unfollow yourself" false,
        store := db, ops := [] } ∧
    (jsonMessage 400 "You cannot follow/unfollow yourself" false).body.success = false := by
  simp [followOrUnfollow, jsonMessage]

/-- C2, counterexample: user 1 does not follow user 2 but is listed among the
followers of user 2. After a follow and an unfollow by user 1, the followers
list of user 2 is empty, not the original `[1]`. -/
theorem follow_then_unfollow_drops_stale_follower :
    (1 : Id) ≠ 2 ∧
    (User.findById storeHalfEdge.users 1).map User.following = some [] ∧
    (User.findById storeHalfEdge.users 2).map User.followers = some [1] ∧
    (followOrUnfollow storeHalfEdge (hexString 1) (hexString 2)).res.body.message =
      some "Followed successfully" ∧
    (followOrUnfollow (followOrUnfollow storeHalfEdge (hexString 1) (hexString 2)).store
      (hexString 1) (hexString 2)).res.body.message = some "Unfollowed successfully" ∧
    (User.findById (followOrUnfollow
        (followOrUnfollow storeHalfEdge (hexString 1) (hexString 2)).store
        (hexString 1) (hexString 2)).store.users 2).map User.followers = some [] := by
  decide

/-- The target id sent twice in a spelling other than the lower-case hex string
(neither user following the other): `includes` compares strings, so the second
call does not see the edge and follows again; both lists hold the edge twice. -/
theorem follow_twice_other_spelling :
    (followOrUnfollow storeTwo (hexString 1) { value := some 2, spelling := 1 }).res.body.message
      = some "Followed successfully" ∧
    (followOrUnfollow
        (followOrUnfollow storeTwo (hexString 1) { value := some 2, spelling := 1 }).store
        (hexString 1) { value := some 2, spelling := 1 }).res.body.message =
      some "Followed successfully" ∧
    (User.findById (followOrUnfollow
        (followOrUnfollow storeTwo (hexString 1) { value := some 2, spelling := 1 }).store
        (hexString 1) { value := some 2, spelling := 1 }).store.users 1).map User.following =
      some [2, 2] ∧
    (User.findById (followOrUnfollow
        (followOrUnfollow storeTwo (hexString 1) { value := some 2, spelling := 1 }).store
        (hexString 1) { value := some 2, spelling := 1 }).store.users 2).map User.followers =
      some [1, 1] := by
  decide

/-- C2, amended: when distinct existing users A and B are such that B is not in
A's following list and A is not in B's followers list, and the target id is
sent as the lower-case hex string of B's id, a follow by A of B followed by a
second call (which unfollows) leaves the store exactly as it was before the
first call, so every user's followers and following lists are the original
ones. The caller id may be sent in any spelling. -/
theorem follow_then_unfollow_restores (db : Store) (ra : ReqId) (a b : Id) (ua ub : User)
    (hra : castObjectId ra = some a) (hab : a ≠ b)
    (ha : User.findById db.users a = some ua) (hb : User.findById db.users b = some ub)
    (hnf : b ∉ ua.following) (hnb : a ∉ ub.followers) :
    (followOrUnfollow db ra (hexString b)).res.body.message = some "Followed successfully" ∧
    (followOrUnfollow (followOrUnfollow db ra (hexString b)).store ra (hexString b)).res.body.message
      = some "Unfollowed successfully" ∧
    (followOrUnfollow (followOrUnfollow db ra (hexString b)).store ra (hexString b)).store = db ∧
    ∀ x, (User.findById (followOrUnfollow (followOrUnfollow db ra (hexString b)).store ra
          (hexString b)).store.users x).map (fun u => (u.following, u.followers)) =
      (User.findById db.users x).map (fun u => (u.following, u.followers)) := by
  have hba : ¬ b = a := fun h => hab h.symm
  have hrb : castObjectId (hexString b) = some b := rfl
  have hne : ra ≠ hexString b := reqId_ne_of_cast_ne ra _ a b hra hrb hab
  have h1 := followOrUnfollow_follow_users db ra (hexString b) a b ua ub hne hra hrb ha hb
    (includes_false_of_not_mem _ _ b hrb hnf)
  have ha1 : User.findById (followOrUnfollow db ra (hexString b)).store.users a =
      some (applyUpdate (.push .following b) ua) := by
    rw [h1]; simp [findById_two_updates _ _ _ _ _ _ hab, ha]
  have hb1 : User.findById (followOrUnfollow db ra (hexString b)).store.users b =
      some (applyUpdate (.push .followers a) ub) := by
    rw [h1]; simp [findById_two_updates _ _ _ _ _ _ hab, hb, hba]
  have hf1 : includes (applyUpdate (.push .following b) ua).following (hexString b) = true := by
    rw [includes_hexString]; simp [applyUpdate]
  have h2 := followOrUnfollow_unfollow_users _ ra (hexString b) a b _ _ hne hra hrb ha1 hb1 hf1
  have ea : modifyById (applyUpdate (.pull .following b))
      (modifyById (applyUpdate (.push .following b)) db.users a) a = db.users := by
    rw [modifyById_modifyById_same _ _ (applyUpdate_id _)]
    apply modifyById_fixed _ db.users a ua ha
    show ({ ua with following := (ua.following ++ [b]).filter (fun x => decide (x ≠ b)) } : User)
      = ua
    rw [filter_ne_append_self _ _ hnf]
  have eb : modifyById (applyUpdate (.pull .followers a))
      (modifyById (applyUpdate (.push .followers a)) db.users b) b = db.users := by
    rw [modifyById_modifyById_same _ _ (applyUpdate_id _)]
    apply modifyById_fixed _ db.users b ub hb
    show ({ ub with followers := (ub.followers ++ [a]).filter (fun x => decide (x ≠ a)) } : User)
      = ub
    rw [filter_ne_append_self _ _ hnb]
  have hstore :
      (followOrUnfollow (followOrUnfollow db ra (hexString b)).store ra (hexString b)).store
        = db := by
    rw [h2, h1]
    simp only [User.findByIdAndUpdate]
    rw [modifyById_comm (applyUpdate (.push .followers a)) (applyUpdate (.pull .following b))
      (applyUpdate_id _) (applyUpdate_id _) _ b a (fun h => hab h.symm), ea, eb]
  refine ⟨by rw [h1]; rfl, by rw [h2]; rfl, hstore, ?_⟩
  intro x
  rw [hstore]

theorem follow_then_unfollow_restores_witness :
    (1 : Id) ≠ 2 ∧
    ((followOrUnfollow storeTwo (hexString 1) (hexString 2)).res.body.message =
      some "Followed successfully" ∧
    (followOrUnfollow (followOrUnfollow storeTwo (hexString 1) (hexString 2)).store
      (hexString 1) (hexString 2)).res.body.message = some "Unfollowed successfully" ∧
    (followOrUnfollow (followOrUnfollow storeTwo (hexString 1) (hexString 2)).store
      (hexString 1) (hexString 2)).store = storeTwo ∧
    ∀ x, (User.findById (followOrUnfollow
          (followOrUnfollow storeTwo (hexString 1) (hexString 2)).store (hexString 1)
          (hexString 2)).store.users x).map (fun u => (u.following, u.followers)) =
      (User.findById storeTwo.users x).map (fun u => (u.following, u.followers))) :=
  ⟨by decide,
   follow_then_unfollow_restores storeTwo (hexString 1) 1 2 (mkUser 1 "alice" "alice@x.com" "h1")
     (mkUser 2 "bob" "bob@x.com" "h2") (by decide) (by decide) (by decide) (by decide)
     (by decide) (by decide)⟩

/-- C4: `followOrUnfollow` preserves the mirrored-edge invariant, for any caller
id string and target id string, whichever branch (self error, cast error, not
found, follow, unfollow) is taken, also when the two strings are different
spellings of one id. -/
theorem followOrUnfollow_preserves_mirrored (db : Store) (ra rb : ReqId)
    (h : Mirrored db.users) : Mirrored (followOrUnfollow db ra rb).store.users := by
  rcases followOrUnfollow_cases db ra rb with hsame | ⟨a, b, ua, ub, hne, hra, hrb, ha, hb⟩
  · rw [hsame]; exact h
  cases hinc : includes ua.following rb with
  | true =>
    rw [followOrUnfollow_unfollow_users db ra rb a b ua ub hne hra hrb ha hb hinc]
    intro x y ux' uy' hx hy hmem
    obtain ⟨ux, hx0, hxf, _⟩ := lists_after_unfollow _ _ _ _ _ hx
    obtain ⟨uy, hy0, _, hyf⟩ := lists_after_unfollow _ _ _ _ _ hy
    rw [hxf] at hmem
    rw [hyf]
    have hm0 : y ∈ ux.following ∧ (x = a → y ≠ b) := by
      by_cases hxa : x = a
      · rw [if_pos hxa] at hmem
        have hm : y ∈ ux.following ∧ y ≠ b := by simpa [List.mem_filter] using hmem
        exact ⟨hm.1, fun _ => hm.2⟩
      · rw [if_neg hxa] at hmem
        exact ⟨hmem, fun e => absurd e hxa⟩
    have hold := h x y ux uy hx0 hy0 hm0.1
    by_cases hyb : y = b
    · rw [if_pos hyb]
      have hxa : x ≠ a := fun e => hm0.2 e hyb
      simp [List.mem_filter, hold, hxa]
    · rw [if_neg hyb]
      exact hold
  | false =>
    rw [followOrUnfollow_follow_users db ra rb a b ua ub hne hra hrb ha hb hinc]
    intro x y ux' uy' hx hy hmem
    obtain ⟨ux, hx0, hxf, _⟩ := lists_after_follow _ _ _ _ _ hx
    obtain ⟨uy, hy0, _, hyf⟩ := lists_after_follow _ _ _ _ _ hy
    rw [hxf] at hmem
    rw [hyf]
    by_cases hxa : x = a
    · by_cases hyb : y = b
      · rw [if_pos hyb]
        simp [hxa]
      · rw [if_neg hyb]
        rw [if_pos hxa] at hmem
        have hm : y ∈ ux.following := by simpa [hyb] using hmem
        exact h x y ux uy hx0 hy0 hm
    · rw [if_neg hxa] at hmem
      have hold := h x y ux uy hx0 hy0 hmem
      by_cases hyb : y = b
      · rw [if_pos hyb]
        simp [hold]
      · rw [if_neg hyb]
        exact hold

theorem followOrUnfollow_preserves_mirrored_witness :
    Mirrored storeHalfEdge.users ∧
    Mirrored (followOrUnfollow storeHalfEdge (hexString 1) (hexString 2)).store.users :=
  ⟨mirrored_of_docs _ (by decide),
   followOrUnfollow_preserves_mirrored storeHalfEdge (hexString 1) (hexString 2)
     (mirrored_of_docs _ (by decide))⟩

/-- In the follow branch the reported count is the length of the target's
followers list after the call. -/
theorem followOrUnfollow_count_after_follow (db : Store) (ra rb : ReqId) (a b : Id)
    (ua ub : User) (hra : castObjectId ra = some a) (hrb : castObjectId rb = some b)
    (hab : a ≠ b) (ha : User.findById db.users a = some ua)
    (hb : User.findById db.users b = some ub) (hinc : includes ua.following rb = false) :
    (followOrUnfollow db ra rb).res.body.updatedFollowerCount =
      (User.findById (followOrUnfollow db ra rb).store.users b).map
        (fun u => (u.followers.length : Int)) := by
  have hba : ¬ b = a := fun h => hab h.symm
  rw [followOrUnfollow_follow_users db ra rb a b ua ub (reqId_ne_of_cast_ne ra rb a b hra hrb hab)
    hra hrb ha hb hinc]
  simp [findById_two_updates _ _ _ _ _ _ hab, hb, hba, applyUpdate, jsonCount]

/-- In the unfollow branch the reported count is the length of the target's
followers list after the call exactly when the caller occurred once in it. -/
theorem followOrUnfollow_count_after_unfollow (db : Store) (ra rb : ReqId) (a b : Id)
    (ua ub : User) (hra : castObjectId ra = some a) (hrb : castObjectId rb = some b)
    (hab : a ≠ b) (ha : User.findById db.users a = some ua)
    (hb : User.findById db.users b = some ub) (hinc : includes ua.following rb = true) :
    (followOrUnfollow db ra rb).res.body.updatedFollowerCount =
        (User.findById (followOrUnfollow db ra rb).store.users b).map
          (fun u => (u.followers.length : Int)) ↔
      ub.followers.count a = 1 := by
  have hba : ¬ b = a := fun h => hab h.symm
  rw [followOrUnfollow_unfollow_users db ra rb a b ua ub
    (reqId_ne_of_cast_ne ra rb a b hra hrb hab) hra hrb ha hb hinc]
  have hlen : (ub.followers.filter (fun x => decide (x ≠ a))).length + ub.followers.count a =
      ub.followers.length := by
    induction ub.followers with
    | nil => rfl
    | cons x xs ih =>
      by_cases hx : x = a
      · simp [hx, List.filter_cons] at ih ⊢; omega
      · simp [hx, List.filter_cons, List.count_cons] at ih ⊢; omega
  simp only [findById_two_updates _ _ _ _ _ _ hab, hb, hba, applyUpdate, jsonCount, if_false,
    if_true, Option.map_some', Option.some.injEq]
  omega

/-- A store reached by two racing follow requests: the edge is recorded twice
on both sides. The unfollow reports 1 follower while none is left. -/
theorem followOrUnfollow_count_duplicates :
    (followOrUnfollow
        { users := [{ mkUser 1 "alice" "alice@x.com" "h1" with following := [2, 2] },
                    { mkUser 2 "bob" "bob@x.com" "h2" with followers := [1, 1] }],
          posts := [] } (hexString 1) (hexString 2)).res.body.updatedFollowerCount = some 1 ∧
    (User.findById (followOrUnfollow
        { users := [{ mkUser 1 "alice" "alice@x.com" "h1" with following := [2, 2] },
                    { mkUser 2 "bob" "bob@x.com" "h2" with followers := [1, 1] }],
          posts := [] } (hexString 1) (hexString 2)).store.users 2).map User.followers
      = some [] := by
  decide

/-- C10, the code at a failing input: user 1 follows user 2 but the followers
list of user 2 is empty. The unfollow answers 200 with `updatedFollowerCount`
equal to -1, while the followers list of user 2 afterwards has 0 entries. -/
theorem followOrUnfollow_count_negative :
    (1 : Id) ≠ 2 ∧
    (followOrUnfollow storeDangling (hexString 1) (hexString 2)).res.status = 200 ∧
    (followOrUnfollow storeDangling (hexString 1) (hexString 2)).res.body.success = true ∧
    (followOrUnfollow storeDangling (hexString 1) (hexString 2)).res.body.updatedFollowerCount
      = some (-1) ∧
    (User.findById (followOrUnfollow storeDangling (hexString 1) (hexString 2)).store.users 2).map
      (fun u => (u.followers.length : Int)) = some 0 := by
  decide

/-! ## Claims about `login` -/

theorem populatePost_eq (posts : List Post) (userId postId : Id) :
    populatePost posts userId postId =
      if resolvesToOwnPost posts userId postId then Post.findById posts postId else none := by
  unfold populatePost resolvesToOwnPost
  cases h : Post.findById posts postId with
  | none => simp
  | some post => by_cases ha : post.author = userId <;> simp [ha]

theorem populatePost_some {posts : List Post} {userId postId : Id} {post : Post}
    (h : populatePost posts userId postId = some post) :
    Post.findById posts postId = some post ∧ post.author = userId := by
  unfold populatePost at h
  cases hf : Post.findById posts postId with
  | none => simp [hf] at h
  | some q =>
    by_cases ha : q.author = userId
    · simp [hf, ha] at h; subst h; exact ⟨rfl, ha⟩
    · simp [hf, ha] at h

theorem login_success (E : Env) (db : Store) (e p : String) (u : User)
    (he : e ≠ "") (hp : p ≠ "") (hu : User.findOne db.users e = some u)
    (hc : E.bcryptCompare p u.password = true) :
    (login E db { email := some e, password := some p }).res.body.user =
      some { _id := u._id, username := u.username, email := u.email,
             profilePicture := u.profilePicture, bio := u.bio, followers := u.followers,
             following := u.following, posts := u.posts.map (populatePost db.posts u._id) } := by
  simp [login, truthy, he, hp, hu, hc]

/-- C5: a login whose email matches no user and a login whose email matches a
user but whose password comparison fails get the same response: status 400,
body with message "Invalid email or password" and success false, no cookie. -/
theorem login_invalid_credentials_indistinguishable (E : Env) (db : Store)
    (e1 p1 e2 p2 : String) (u : User)
    (he1 : e1 ≠ "") (hp1 : p1 ≠ "") (he2 : e2 ≠ "") (hp2 : p2 ≠ "")
    (hnone : User.findOne db.users e1 = none) (hsome : User.findOne db.users e2 = some u)
    (hbad : E.bcryptCompare p2 u.password = false) :
    (login E db { email := some e1, password := some p1 }).res =
      (login E db { email := some e2, password := some p2 }).res ∧
    (login E db { email := some e1, password := some p1 }).res =
      { status := 400,
        body := { message := some "Invalid email or password", success := false,
                  user := none, users := none, updatedFollowerCount := none },
        cookie := none } ∧
    (login E db { email := some e2, password := some p2 }).res.cookie = none := by
  simp [login, truthy, he1, hp1, he2, hp2, hnone, hsome, hbad, jsonMessage]

theorem login_invalid_credentials_indistinguishable_witness :
    User.findOne storePosts.users "carol@x.com" = none ∧
    demoEnv.bcryptCompare "wrong" "$2a$10$pw123456" = false ∧
    ((login demoEnv storePosts { email := some "carol@x.com", password := some "pw123456" }).res =
      (login demoEnv storePosts { email := some "alice@x.com", password := some "wrong" }).res ∧
    (login demoEnv storePosts { email := some "carol@x.com", password := some "pw123456" }).res =
      { status := 400,
        body := { message := some "Invalid email or password", success := false,
                  user := none, users := none, updatedFollowerCount := none },
        cookie := none } ∧
    (login demoEnv storePosts { email := some "alice@x.com", password := some "wrong" }).res.cookie
      = none) :=
  ⟨by decide, by decide,
   login_invalid_credentials_indistinguishable demoEnv storePosts "carol@x.com" "pw123456"
     "alice@x.com" "wrong"
     { mkUser 1 "alice" "alice@x.com" "$2a$10$pw123456" with posts := [10, 11, 12] }
     (by decide) (by decide) (by decide) (by decide) (by decide) (by decide) (by decide)⟩

/-- C6, counterexample: user 1 logs in successfully. Of the three stored post
ids only one resolves to a post of user 1, yet the returned posts list has
three entries, two of them `null`. -/
theorem login_posts_keep_null_entries :
    (login demoEnv storePosts { email := some "alice@x.com", password := some "pw123456" }).res.status
      = 200 ∧
    (login demoEnv storePosts
        { email := some "alice@x.com", password := some "pw123456" }).res.body.user.map
      UserResponse.posts = some [some { _id := 10, author := 1, caption := "mine" }, none, none] ∧
    (login demoEnv storePosts
        { email := some "alice@x.com", password := some "pw123456" }).res.body.user.map
      (fun view => view.posts.length) = some 3 ∧
    (([10, 11, 12] : List Id).filter (resolvesToOwnPost storePosts.posts 1)).length = 1 := by
  decide

/-- C6, amended: on a successful login of user U the returned posts list has one
entry per id of U's stored posts list, in order: the post document when the id
resolves to a post whose author is U, and `null` otherwise. Every entry that is
a post document has author U, and the number of such entries is the number of
stored ids that resolve to a post of U. -/
theorem login_posts_populated (E : Env) (db : Store) (e p : String) (u : User)
    (he : e ≠ "") (hp : p ≠ "") (hu : User.findOne db.users e = some u)
    (hc : E.bcryptCompare p u.password = true) :
    ∃ view, (login E db { email := some e, password := some p }).res.body.user = some view ∧
      view._id = u._id ∧
      view.posts.length = u.posts.length ∧
      (∀ (i : Nat) (postId : Id), u.posts[i]? = some postId →
        view.posts[i]? = some (if resolvesToOwnPost db.posts u._id postId
          then Post.findById db.posts postId else none)) ∧
      (∀ post, some post ∈ view.posts → post.author = u._id) ∧
      (view.posts.filter Option.isSome).length =
        (u.posts.filter (resolvesToOwnPost db.posts u._id)).length := by
  refine ⟨_, login_success E db e p u he hp hu hc, rfl, ?_, ?_, ?_, ?_⟩
  · simp
  · intro i postId hi
    simp [List.getElem?_map, hi, populatePost_eq]
  · intro post hmem
    simp only [List.mem_map] at hmem
    obtain ⟨postId, _, hpid⟩ := hmem
    exact (populatePost_some hpid).2
  · simp only [List.filter_map, List.length_map]
    congr 1
    apply List.filter_congr
    intro postId _
    simp only [Function.comp, populatePost_eq]
    unfold resolvesToOwnPost
    cases h : Post.findById db.posts postId with
    | none => simp
    | some post => by_cases ha : post.author = u._id <;> simp [ha]

theorem login_posts_populated_witness :
    demoEnv.bcryptCompare "pw123456" "$2a$10$pw123456" = true ∧
    ∃ view, (login demoEnv storePosts
        { email := some "alice@x.com", password := some "pw123456" }).res.body.user = some view ∧
      view._id = 1 ∧
      view.posts.length = 3 ∧
      (∀ (i : Nat) (postId : Id), ([10, 11, 12] : List Id)[i]? = some postId →
        view.posts[i]? = some (if resolvesToOwnPost storePosts.posts 1 postId
          then Post.findById storePosts.posts postId else none)) ∧
      (∀ post, some post ∈ view.posts → post.author = 1) ∧
      (view.posts.filter Option.isSome).length =
        (([10, 11, 12] : List Id).filter (resolvesToOwnPost storePosts.posts 1)).length :=
  ⟨by decide,
   login_posts_populated demoEnv storePosts "alice@x.com" "pw123456"
     { mkUser 1 "alice" "alice@x.com" "$2a$10$pw123456" with posts := [10, 11, 12] }
     (by decide) (by decide) (by decide) (by decide)⟩

/-! ## Claims about `getSuggestedUsers` and `register` -/

theorem mem_findNe (users : List User) (a : Id) (q : PublicUser) :
    q ∈ User.findNe users a ↔ ∃ u ∈ users, u._id ≠ a ∧ selectMinusPassword u = q := by
  simp [User.findNe, List.mem_map, List.mem_filter, and_assoc]

theorem findNe_eq_nil (users : List User) (a : Id) :
    User.findNe users a = [] ↔ ∀ u ∈ users, u._id = a := by
  simp [User.findNe, List.filter_eq_nil_iff]

/-- C7: for every caller id string, the user list answered by
`getSuggestedUsers` never holds a user whose id is the caller's; it holds every
other stored user with all stored fields but the password (id, username,
email, picture, bio, gender, followers, following, posts, bookmarks), and
nothing else. For a caller id A: when another user exists the answer is 200
with that list, one entry per other stored user in store order; when none
exists (also in an empty store) the answer is 400 "No suggested users at this
time" with no user list. The store is not changed. -/
theorem getSuggestedUsers_excludes_caller (db : Store) (r : ReqId) :
    (∀ us, (getSuggestedUsers db r).res.body.users = some us →
      (∀ q ∈ us, some q._id ≠ castObjectId r) ∧
      (∀ u ∈ db.users, some u._id ≠ castObjectId r →
        ({ _id := u._id, username := u.username, email := u.email,
           profilePicture := u.profilePicture, bio := u.bio, gender := u.gender,
           followers := u.followers, following := u.following, posts := u.posts,
           bookmarks := u.bookmarks } : PublicUser) ∈ us) ∧
      (∀ q ∈ us, ∃ u ∈ db.users,
        q._id = u._id ∧ q.username = u.username ∧ q.email = u.email ∧
        q.profilePicture = u.profilePicture ∧ q.bio = u.bio ∧ q.gender = u.gender ∧
        q.followers = u.followers ∧ q.following = u.following ∧ q.posts = u.posts ∧
        q.bookmarks = u.bookmarks)) ∧
    (∀ a, castObjectId r = some a → (∃ u ∈ db.users, u._id ≠ a) →
      (getSuggestedUsers db r).res.status = 200 ∧
      (getSuggestedUsers db r).res.body.success = true ∧
      (getSuggestedUsers db r).res.body.users =
        some ((db.users.filter (fun u => decide (u._id ≠ a))).map (fun u =>
          ({ _id := u._id, username := u.username, email := u.email,
             profilePicture := u.profilePicture, bio := u.bio, gender := u.gender,
             followers := u.followers, following := u.following, posts := u.posts,
             bookmarks := u.bookmarks } : PublicUser)))) ∧
    (∀ a, castObjectId r = some a → (∀ u ∈ db.users, u._id = a) →
      (getSuggestedUsers db r).res = jsonMessage 400 "No suggested users at this time" false ∧
      (getSuggestedUsers db r).res.body.users = none) ∧
    (getSuggestedUsers db r).store = db := by
  cases hr : castObjectId r with
  | none =>
    refine ⟨?_, ?_, ?_, ?_⟩
    · intro us hus
      simp [getSuggestedUsers, hr, jsonMessage] at hus
    · intro a ha
      simp at ha
    · intro a ha
      simp at ha
    · simp [getSuggestedUsers, hr]
  | some c =>
  by_cases hnil : User.findNe db.users c = []
  · have hall := (findNe_eq_nil db.users c).mp hnil
    refine ⟨?_, ?_, ?_, ?_⟩
    · intro us hus
      simp [getSuggestedUsers, hr, hnil, jsonMessage] at hus
    · rintro a ha ⟨u, hu, hne⟩
      cases ha
      exact absurd (hall u hu) hne
    · intro a _ _
      simp [getSuggestedUsers, hr, hnil, jsonMessage]
    · simp [getSuggestedUsers, hr, hnil]
  · have hlen : ¬ (User.findNe db.users c).length = 0 := by
      simpa [List.length_eq_zero] using hnil
    refine ⟨?_, ?_, ?_, ?_⟩
    · intro us hus
      simp only [getSuggestedUsers, hr, hlen, if_false, Option.some.injEq] at hus
      subst hus
      refine ⟨?_, ?_, ?_⟩
      · intro q hq
        obtain ⟨u, _, hne, rfl⟩ := (mem_findNe db.users c q).mp hq
        intro e
        exact hne (Option.some.inj e)
      · intro u hu hne
        exact (mem_findNe db.users c _).mpr ⟨u, hu, fun e => hne (congrArg some e), rfl⟩
      · intro q hq
        obtain ⟨u, hu, _, rfl⟩ := (mem_findNe db.users c q).mp hq
        exact ⟨u, hu, rfl, rfl, rfl, rfl, rfl, rfl, rfl, rfl, rfl, rfl⟩
    · intro a ha _
      cases ha
      have hres : (getSuggestedUsers db r).res =
          { status := 200,
            body := { message := none, success := true, user := none,
                      users := some (User.findNe db.users c), updatedFollowerCount := none },
            cookie := none } := by
        simp [getSuggestedUsers, hr, hlen]
      rw [hres]
      exact ⟨rfl, rfl, rfl⟩
    · intro a ha hall
      cases ha
      exact absurd ((findNe_eq_nil db.users c).mpr hall) hnil
    · simp [getSuggestedUsers, hr, hlen]

/-- C8: for a register request with non-empty username, email and password:
when a stored user already has that email the answer is 400 "Email already in
use" with success false and the store is unchanged; when no stored user has
that email the answer is 201 and the users collection is the old one followed
by exactly one new record, carrying that username, that email and as password
the bcrypt hash of the request's password (not the password itself, unless the
hash function returns its input). -/
theorem register_conflict_or_created (E : Env) (db : Store) (username email password : String)
    (oid : Id) (hu : username ≠ "") (he : email ≠ "") (hp : password ≠ "") :
    ((∃ u ∈ db.users, u.email = email) →
      (register E db { username := some username, email := some email,
                       password := some password } oid).res =
        jsonMessage 400 "Email already in use" false ∧
      (jsonMessage 400 "Email already in use" false).body.success = false ∧
      (register E db { username := some username, email := some email,
                       password := some password } oid).store = db) ∧
    ((∀ u ∈ db.users, u.email ≠ email) →
      (register E db { username := some username, email := some email,
                       password := some password } oid).res.status = 201 ∧
      (register E db { username := some username, email := some email,
                       password := some password } oid).store.posts = db.posts ∧
      ∃ nu : User,
        (register E db { username := some username, email := some email,
                         password := some password } oid).store.users = db.users ++ [nu] ∧
        nu.username = username ∧ nu.email = email ∧
        nu.password = E.bcryptHash password 10 ∧
        (E.bcryptHash password 10 ≠ password → nu.password ≠ password)) := by
  constructor
  · rintro ⟨u, hmem, hmail⟩
    have hfind : ∃ v, User.findOne db.users email = some v := by
      cases hf : User.findOne db.users email with
      | some v => exact ⟨v, rfl⟩
      | none =>
        have := List.find?_eq_none.mp hf u hmem
        simp [hmail] at this
    obtain ⟨v, hv⟩ := hfind
    simp [register, truthy, hu, he, hp, hv, jsonMessage]
  · intro hall
    have hf : User.findOne db.users email = none := by
      apply List.find?_eq_none.mpr
      intro u hmem
      simpa using hall u hmem
    refine ⟨by simp [register, truthy, hu, he, hp, hf, jsonMessage],
      by simp [register, truthy, hu, he, hp, hf],
      mkUser oid username email (E.bcryptHash password 10), ?_, rfl, rfl, rfl, fun h => h⟩
    simp [register, truthy, hu, he, hp, hf, User.create, mkUser]

theorem register_conflict_or_created_witness :
    ((register demoEnv storeTwo { username := some "alice2", email := some "alice@x.com",
                                  password := some "pw123456" } 3).res =
        jsonMessage 400 "Email already in use" false ∧
      (jsonMessage 400 "Email already in use" false).body.success = false ∧
      (register demoEnv storeTwo { username := some "alice2", email := some "alice@x.com",
                                   password := some "pw123456" } 3).store = storeTwo) ∧
    ((register demoEnv storeTwo { username := some "carol", email := some "carol@x.com",
                                  password := some "pw123456" } 3).res.status = 201 ∧
      (register demoEnv storeTwo { username := some "carol", email := some "carol@x.com",
                                   password := some "pw123456" } 3).store.posts = storeTwo.posts ∧
      ∃ nu : User,
        (register demoEnv storeTwo { username := some "carol", email := some "carol@x.com",
                                     password := some "pw123456" } 3).store.users =
          storeTwo.users ++ [nu] ∧
        nu.username = "carol" ∧ nu.email = "carol@x.com" ∧
        nu.password = demoEnv.bcryptHash "pw123456" 10 ∧
        (demoEnv.bcryptHash "pw123456" 10 ≠ "pw123456" → nu.password ≠ "pw123456")) :=
  ⟨(register_conflict_or_created demoEnv storeTwo "alice2" "alice@x.com" "pw123456" 3
      (by decide) (by decide) (by decide)).1
      ⟨mkUser 1 "alice" "alice@x.com" "h1", by decide, by decide⟩,
   (register_conflict_or_created demoEnv storeTwo "carol" "carol@x.com" "pw123456" 3
      (by decide) (by decide) (by decide)).2 (by decide)⟩

/-! ## Claims about the client reducer -/

/-- C9: on a rejected follow or unfollow action the reducer sets `status` to
"failed" and `error` to the action's payload, and leaves `user`, `userProfile`,
`suggestedUsers` and `selectedUser` as they were. -/
theorem authReducer_rejected (state : AuthState) (payload : Option Body) :
    authReducer state (.followUserRejected payload) =
      { user := state.user, suggestedUsers := state.suggestedUsers,
        userProfile := state.userProfile, selectedUser := state.selectedUser,
        status := "failed", error := payload } ∧
    authReducer state (.unfollowUserRejected payload) =
      { user := state.user, suggestedUsers := state.suggestedUsers,
        userProfile := state.userProfile, selectedUser := state.selectedUser,
        status := "failed", error := payload } ∧
    (authReducer state (.followUserRejected payload)).user.map ClientUser.following =
      state.user.map ClientUser.following ∧
    (authReducer state (.unfollowUserRejected payload)).user.map ClientUser.following =
      state.user.map ClientUser.following ∧
    (authReducer state (.followUserRejected payload)).userProfile.map ClientUser.followers =
      state.userProfile.map ClientUser.followers ∧
    (authReducer state (.unfollowUserRejected payload)).userProfile.map ClientUser.followers =
      state.userProfile.map ClientUser.followers :=
  ⟨rfl, rfl, rfl, rfl, rfl, rfl⟩

end InstaClone
